import Mathlib

/-!
Verification of the FMZB Hub inventory/user web application.

The Python modules `app/product_model.py`, `Project/FinalProject/app/users.py`
and `Project/FinalProject/app/views.py` are shallowly embedded here.
SQL tables become Lean lists of records, timestamps become day-granularity
integers, and each handler becomes a pure function over an explicit state.
Failures that Python raises as exceptions are modelled with `Except`.
-/

/-! ## Product data model (`app/product_model.py`) -/

/-- A row of the `product` table. `updated_at` is nullable. -/
structure Product where
  product_id : Nat
  sku : String
  title : String
  category : String
  price : Int
  quantity : Int
  description : String
  image_url : String
  archived : Bool
  is_sold : Bool
  created_at : Int
  updated_at : Option Int
deriving DecidableEq, Repr

/-- A row returned by `fetch_idle_stock` (projection plus `days_idle`). -/
structure IdleRow where
  product_id : Nat
  sku : String
  title : String
  category : String
  price : Int
  quantity : Int
  days_idle : Int
deriving DecidableEq, Repr

/-- The WHERE clause of `fetch_idle_stock`:
`archived = 0 AND (updated_at IS NULL OR updated_at < NOW() - INTERVAL days DAY)`. -/
def idleKeep (now days : Int) (p : Product) : Bool :=
  !p.archived &&
    (match p.updated_at with
     | none => true
     | some u => decide (u < now - days))

/-- The SELECT list of `fetch_idle_stock`:
`DATEDIFF(NOW(), COALESCE(updated_at, created_at)) AS days_idle`. -/
def idleRow (now : Int) (p : Product) : IdleRow :=
  { product_id := p.product_id, sku := p.sku, title := p.title,
    category := p.category, price := p.price, quantity := p.quantity,
    days_idle := now - (p.updated_at.getD p.created_at) }

/-- `ORDER BY days_idle DESC, quantity DESC` as a before-or-equal test. -/
def idleLe (a b : IdleRow) : Bool :=
  decide (b.days_idle < a.days_idle ∨
    (a.days_idle = b.days_idle ∧ b.quantity ≤ a.quantity))

/-- `fetch_idle_stock(days)` from `product_model.py`: filter by the WHERE
clause, project each row with its `days_idle`, and order the result. -/
def fetch_idle_stock (now days : Int) (table : List Product) : List IdleRow :=
  ((table.filter (idleKeep now days)).map (idleRow now)).mergeSort idleLe

/-- The idle filter as the spec words it: the coalesced date
(`updated_at`, or `created_at` when null) must be older than `days` ago. -/
def specIdleKeep (now days : Int) (p : Product) : Bool :=
  !p.archived && decide (p.updated_at.getD p.created_at < now - days)

/-! ## `search_products` (`app/product_model.py`) -/

/-- The optional search filters. In the handler a missing form field and an
empty string are both falsy, so an empty-string filter is inactive. -/
structure Filters where
  sku : Option String
  category : Option String
  keyword : Option String
  min_price : Option Int
  max_price : Option Int
deriving DecidableEq, Repr

/-- The empty filter dictionary. -/
def Filters.empty : Filters := ⟨none, none, none, none, none⟩

/-- SQL `hay LIKE '%sub%'`: `sub` occurs inside `hay`. -/
def strContains (hay sub : String) : Bool :=
  decide (sub.toList <:+: hay.toList)

/-- Python truthiness of `filters.get(key)` for the string-valued filters. -/
def strActive (o : Option String) : Bool :=
  o.getD "" ≠ ""

/-- An optional string-valued predicate of the WHERE clause: applies only
when the filter value is present and non-empty (Python truthiness). -/
def strClause (o : Option String) (g : String → Bool) : Bool :=
  !strActive o || g (o.getD "")

/-- An optional numeric predicate of the WHERE clause: applies exactly when
the filter value `is not None`. -/
def intClause (o : Option Int) (g : Int → Bool) : Bool :=
  match o with
  | none => true
  | some m => g m

/-- The WHERE clause built by `search_products`: the mandatory
`archived = 0` conjoined with each active optional predicate. -/
def matchesFilters (f : Filters) (p : Product) : Bool :=
  !p.archived
  && strClause f.sku (fun s => strContains p.sku s)
  && strClause f.category (fun c => p.category == c)
  && strClause f.keyword
      (fun k => strContains p.title k || strContains p.description k)
  && intClause f.min_price (fun m => decide (m ≤ p.price))
  && intClause f.max_price (fun m => decide (p.price ≤ m))

/-- `ORDER BY updated_at DESC` (MySQL sorts NULLs last under DESC). -/
def updLe (a b : Product) : Bool :=
  match a.updated_at, b.updated_at with
  | none, none => true
  | none, some _ => false
  | some _, none => true
  | some x, some y => decide (y ≤ x)

/-- `search_products(filters, page, per_page)` from `product_model.py`:
count the matching rows, then return the page slice
`LIMIT per_page OFFSET (page-1)*per_page` of the ordered matches,
together with the total. -/
def search_products (f : Filters) (page per_page : Nat) (table : List Product) :
    List Product × Nat :=
  let ms := table.filter (matchesFilters f)
  let total := ms.length
  let rows := (((ms.mergeSort updLe).drop ((page - 1) * per_page)).take per_page)
  (rows, total)

/-- The WHERE clause of `search_products` as the spec words it: a
conjunction of the mandatory non-archived predicate and each active
optional predicate. -/
def specMatch (f : Filters) (p : Product) : Prop :=
  p.archived = false
  ∧ (∀ s, f.sku = some s → s ≠ "" → strContains p.sku s = true)
  ∧ (∀ c, f.category = some c → c ≠ "" → p.category = c)
  ∧ (∀ k, f.keyword = some k → k ≠ "" →
      (strContains p.title k = true ∨ strContains p.description k = true))
  ∧ (∀ m, f.min_price = some m → m ≤ p.price)
  ∧ (∀ m, f.max_price = some m → p.price ≤ m)

instance (f : Filters) (p : Product) : Decidable (specMatch f p) := by
  unfold specMatch; infer_instance

/-! ## Basic facts about the idle-stock ordering -/

theorem idleLe_trans (a b c : IdleRow) :
    idleLe a b = true → idleLe b c = true → idleLe a c = true := by
  simp only [idleLe, decide_eq_true_eq]
  omega

theorem idleLe_total (a b : IdleRow) :
    idleLe a b || idleLe b a := by
  simp only [idleLe, Bool.or_eq_true, decide_eq_true_eq]
  omega

/-- The concrete product used on claim C1: never updated (`updated_at`
null) and created on the report day itself. -/
def idleP0 : Product :=
  { product_id := 1, sku := "SKU1", title := "T", category := "C",
    price := 10, quantity := 5, description := "D", image_url := "",
    archived := false, is_sold := false, created_at := 100, updated_at := none }

/-- C1, counterexample: with `days = 30` and a product created today but
never updated, `fetch_idle_stock` still returns the product, although its
coalesced date (`created_at`, here today) is not older than 30 days ago.
So the returned rows are not exactly the products whose coalesced date is
older than `days` days ago. -/
theorem C1_counterexample :
    (fetch_idle_stock 100 30 [idleP0]).length = 1 ∧
      specIdleKeep 100 30 idleP0 = false := by
  constructor
  · simp [fetch_idle_stock, List.mergeSort, idleP0, idleKeep]
  · decide

/-- C1, amended: `fetch_idle_stock` returns exactly the non-archived
products whose `updated_at` is null or older than `days` days ago (a null
`updated_at` keeps the row regardless of `created_at`), each with
`days_idle` computed from the coalesced date, ordered by idle duration
descending then quantity descending; in particular every product updated
within the last `days` days fails the WHERE clause and is excluded. -/
theorem C1_fetch_idle_stock (now days : Int) (table : List Product) :
    (∀ r, r ∈ fetch_idle_stock now days table ↔
        ∃ p, p ∈ table ∧ idleKeep now days p = true ∧ r = idleRow now p)
    ∧ List.Pairwise (fun a b => idleLe a b = true) (fetch_idle_stock now days table)
    ∧ (∀ p u, p.updated_at = some u → now - days ≤ u → idleKeep now days p = false) := by
  refine ⟨fun r => ?_, ?_, fun p u hu hge => ?_⟩
  · rw [fetch_idle_stock, (List.mergeSort_perm _ _).mem_iff, List.mem_map]
    constructor
    · rintro ⟨p, hp, rfl⟩
      rw [List.mem_filter] at hp
      exact ⟨p, hp.1, hp.2, rfl⟩
    · rintro ⟨p, hp, hk, rfl⟩
      exact ⟨p, List.mem_filter.mpr ⟨hp, hk⟩, rfl⟩
  · exact List.sorted_mergeSort idleLe_trans idleLe_total _
  · simp only [idleKeep, hu, Bool.and_eq_false_iff, decide_eq_true_eq]
    right
    simp only [decide_eq_false_iff_not, not_lt]
    omega

/-! ## Facts about the `search_products` ordering and filter -/

theorem updLe_trans (a b c : Product) :
    updLe a b = true → updLe b c = true → updLe a c = true := by
  unfold updLe
  cases a.updated_at <;> cases b.updated_at <;> cases c.updated_at <;>
    simp <;> omega

theorem updLe_total (a b : Product) :
    updLe a b || updLe b a := by
  unfold updLe
  cases a.updated_at <;> cases b.updated_at <;> simp <;> omega

theorem strClause_iff (o : Option String) (g : String → Bool) :
    strClause o g = true ↔ ∀ s, o = some s → s ≠ "" → g s = true := by
  cases o with
  | none => simp [strClause, strActive]
  | some s =>
      by_cases hs : s = "" <;>
        simp [strClause, strActive, hs]

theorem intClause_iff (o : Option Int) (g : Int → Bool) :
    intClause o g = true ↔ ∀ m, o = some m → g m = true := by
  cases o <;> simp [intClause]

theorem matchesFilters_iff (f : Filters) (p : Product) :
    matchesFilters f p = true ↔ specMatch f p := by
  unfold matchesFilters specMatch
  simp only [Bool.and_eq_true, strClause_iff, intClause_iff,
    Bool.or_eq_true, beq_iff_eq, decide_eq_true_eq, Bool.not_eq_true']
  tauto

theorem matchesFilters_empty (p : Product) :
    matchesFilters Filters.empty p = !p.archived := by
  simp [matchesFilters, Filters.empty, strClause, intClause, strActive]

/-- C2: `search_products` takes 1-based pages; for any page whose offset
`(page-1)*per_page` is at or beyond the number of matching rows it returns
an empty row list together with the correct total count of matching rows. -/
theorem C2_search_out_of_range (f : Filters) (page per_page : Nat)
    (table : List Product) (hpage : 1 ≤ page)
    (hoff : (table.filter (matchesFilters f)).length ≤ (page - 1) * per_page) :
    (search_products f page per_page table).1 = [] ∧
    (search_products f page per_page table).2 =
      (table.filter (matchesFilters f)).length := by
  refine ⟨?_, rfl⟩
  show ((((table.filter (matchesFilters f)).mergeSort updLe).drop
      ((page - 1) * per_page)).take per_page) = []
  rw [List.drop_eq_nil_of_le, List.take_nil]
  rw [(List.mergeSort_perm _ _).length_eq]
  exact hoff

/-- Witness for C2 at a concrete input: one matching product, page 2. -/
theorem C2_witness :
    (1 ≤ 2 ∧ ([idleP0].filter (matchesFilters Filters.empty)).length ≤ (2 - 1) * 10)
    ∧ (search_products Filters.empty 2 10 [idleP0]).1 = []
    ∧ (search_products Filters.empty 2 10 [idleP0]).2 =
        ([idleP0].filter (matchesFilters Filters.empty)).length :=
  ⟨⟨by decide, by decide⟩,
    C2_search_out_of_range Filters.empty 2 10 [idleP0] (by decide) (by decide)⟩

/-- C3: the WHERE clause of `search_products` is the conjunction of the
mandatory non-archived predicate and each active optional predicate (SKU
partial match, exact category, keyword partial match over title OR
description, minimum and maximum price bounds); the rows are the
`LIMIT per_page OFFSET (page-1)*per_page` slice of the matches ordered by
`updated_at` descending; with no filters the total equals the number of
non-archived products and, when they fit on page 1, the rows are exactly
the non-archived products in that order. -/
theorem C3_search_products (f : Filters) (page per_page : Nat)
    (table : List Product) :
    ((search_products f page per_page table).2 =
        (table.filter (matchesFilters f)).length)
    ∧ (∀ p, matchesFilters f p = true ↔ specMatch f p)
    ∧ ((search_products f page per_page table).1 =
        (((table.filter (matchesFilters f)).mergeSort updLe).drop
          ((page - 1) * per_page)).take per_page)
    ∧ List.Pairwise (fun a b => updLe a b = true)
        ((table.filter (matchesFilters f)).mergeSort updLe)
    ∧ (f = Filters.empty →
        (search_products f page per_page table).2 =
          (table.filter (fun p => !p.archived)).length
        ∧ (page = 1 → (table.filter (fun p => !p.archived)).length ≤ per_page →
            List.Perm (search_products f page per_page table).1
              (table.filter (fun p => !p.archived))
            ∧ List.Pairwise (fun a b => updLe a b = true)
                (search_products f page per_page table).1)) := by
  refine ⟨rfl, matchesFilters_iff f, rfl,
    List.sorted_mergeSort updLe_trans updLe_total _, ?_⟩
  intro hf
  subst hf
  have hfe : table.filter (matchesFilters Filters.empty) =
      table.filter (fun p => !p.archived) :=
    List.filter_congr (fun p _ => matchesFilters_empty p)
  constructor
  · show (table.filter (matchesFilters Filters.empty)).length = _
    rw [hfe]
  · intro hp hlen
    subst hp
    have hlen' : ((table.filter (matchesFilters Filters.empty)).mergeSort
        updLe).length ≤ per_page := by
      rw [(List.mergeSort_perm _ _).length_eq, hfe]; exact hlen
    have hrows : (search_products Filters.empty 1 per_page table).1 =
        (table.filter (matchesFilters Filters.empty)).mergeSort updLe := by
      show ((((table.filter (matchesFilters Filters.empty)).mergeSort
          updLe).drop ((1 - 1) * per_page)).take per_page) = _
      simp [List.take_of_length_le hlen']
    constructor
    · rw [hrows, ← hfe]
      exact List.mergeSort_perm _ _
    · rw [hrows]
      exact List.sorted_mergeSort updLe_trans updLe_total _

/-- Witness for C3 at a concrete input. -/
theorem C3_witness :
    (search_products Filters.empty 1 10 [idleP0]).2 = 1 ∧
      List.Perm (search_products Filters.empty 1 10 [idleP0]).1
        ([idleP0].filter (fun p => !p.archived)) := by
  have h := C3_search_products Filters.empty 1 10 [idleP0]
  refine ⟨?_, ((h.2.2.2.2 rfl).2 rfl (by decide)).1⟩
  rw [h.1]
  decide

/-! ## `archive_product` and `product_has_open_orders` (`app/product_model.py`) -/

/-- The state of the externally-defined order tables that
`product_has_open_orders` probes: whether each table exists, whether a
query raises during the check, and the count of open order rows that the
JOIN query reports for a product id. -/
structure OrderWorld where
  ordersExists : Bool
  orderItemsExists : Bool
  queryError : Bool
  openCount : Nat → Nat

/-- `product_has_open_orders` from `product_model.py`: returns `false`
when either order table is absent or any query raises, otherwise whether
the open-order count is non-zero. -/
def product_has_open_orders (w : OrderWorld) (pid : Nat) : Bool :=
  if w.queryError then false
  else if !(w.ordersExists && w.orderItemsExists) then false
  else w.openCount pid != 0

/-- `archive_product` from `product_model.py`:
`UPDATE product SET archived = 1, updated_at = NOW() WHERE product_id = %s`. -/
def archive_product (now : Int) (table : List Product) (pid : Nat) :
    List Product :=
  table.map (fun p =>
    if p.product_id = pid then { p with archived := true, updated_at := some now }
    else p)

/-- Modelled from the spec: the archive route (its view function is not
under `src/`) calls `product_has_open_orders` first and runs
`archive_product` only when it reports no open orders; otherwise the
archive is blocked. -/
def archiveFlow (w : OrderWorld) (now : Int) (table : List Product)
    (pid : Nat) : Option (List Product) :=
  if product_has_open_orders w pid then none
  else some (archive_product now table pid)

/-- C6: `product_has_open_orders` returns `false` whenever an order table
is absent or a query during the check raises (fail-open), and the archive
flow succeeds — setting the archived flag — in exactly the cases where
`product_has_open_orders` returns `false`, including when the order
tables do not exist. -/
theorem C6_fail_open_archive (w : OrderWorld) (pid : Nat) (now : Int)
    (table : List Product) :
    ((w.queryError = true ∨ w.ordersExists = false ∨ w.orderItemsExists = false) →
      product_has_open_orders w pid = false)
    ∧ ((archiveFlow w now table pid).isSome ↔
        product_has_open_orders w pid = false)
    ∧ (∀ t, archiveFlow w now table pid = some t →
        ∀ p ∈ t, p.product_id = pid → p.archived = true) := by
  refine ⟨?_, ?_, ?_⟩
  · intro h
    unfold product_has_open_orders
    rcases h with h | h | h <;> simp [h]
  · unfold archiveFlow
    by_cases h : product_has_open_orders w pid = true <;> simp [h]
  · intro t ht p hp hpid
    unfold archiveFlow at ht
    by_cases h : product_has_open_orders w pid = true
    · simp [h] at ht
    · simp [h] at ht
      subst ht
      unfold archive_product at hp
      rw [List.mem_map] at hp
      obtain ⟨q, _, hq⟩ := hp
      by_cases hqid : q.product_id = pid
      · rw [if_pos hqid] at hq
        rw [← hq]
      · rw [if_neg hqid] at hq
        rw [← hq] at hpid
        exact absurd hpid hqid

/-- Witness for C6: the order tables are absent and the JOIN would report
open rows, yet the check fails open and the archive succeeds. -/
theorem C6_witness :
    product_has_open_orders ⟨false, false, false, fun _ => 3⟩ 1 = false
    ∧ (archiveFlow ⟨false, false, false, fun _ => 3⟩ 50 [idleP0] 1).isSome := by
  have h := C6_fail_open_archive ⟨false, false, false, fun _ => 3⟩ 1 50 [idleP0]
  have h1 := h.1 (Or.inr (Or.inl rfl))
  exact ⟨h1, h.2.1.mpr h1⟩

/-! ## User data model (`Project/FinalProject/app/users.py`) -/

/-- A row of the `UserProfile` table. -/
structure UserRow where
  email : String
  userType : String
  firstName : String
  lastName : String
  upassword : String
  phone : Option String
  website : Option String
  businessName : Option String
  status : String
  timeOfCreation : Int
  lastLogin : Option Int
deriving DecidableEq, Repr

/-- A row of the append-only `UserActivityLog` table. -/
structure LogRow where
  email : String
  activityType : String
  activityDescription : Option String
  activityDate : Int
deriving DecidableEq, Repr

/-- Python `str.lower()` (ASCII letters). -/
def lowerStr (s : String) : String := String.mk (s.data.map Char.toLower)

/-- Python `str.upper()` (ASCII letters). -/
def upperStr (s : String) : String := String.mk (s.data.map Char.toUpper)

/-- Python `str.strip()`: drop whitespace from both ends. -/
def trimStr (s : String) : String :=
  String.mk (((s.data.dropWhile Char.isWhitespace).reverse.dropWhile
    Char.isWhitespace).reverse)

/-- The e-mail normalisation applied by the handlers: `.strip().lower()`. -/
def normEmail (s : String) : String := lowerStr (trimStr s)

/-- `SELECT ... FROM UserProfile WHERE Email = %s` on the embedded table. -/
def findUser (db : List UserRow) (email : String) : Option UserRow :=
  db.find? (fun u => u.email == email)

/-- A form field extracted with `.strip() or None`. -/
def optField (s : String) : Option String :=
  if trimStr s = "" then none else some (trimStr s)

/-! ## Validators (`users.py`) -/

/-- A character of the regex class `[a-zA-Z0-9._%+-]` (local part). -/
def isLocalChar (c : Char) : Bool :=
  c.isAlpha || c.isDigit || c = '.' || c = '_' || c = '%' || c = '+' || c = '-'

/-- A character of the regex class `[a-zA-Z0-9.-]` (domain part). -/
def isDomainChar (c : Char) : Bool :=
  c.isAlpha || c.isDigit || c = '.' || c = '-'

/-- Split a character list on a separator, like Python `str.split(sep)`
for a one-character separator: adjacent separators yield empty segments. -/
def splitOnChar (sep : Char) : List Char → List (List Char)
  | [] => [[]]
  | c :: cs =>
      if c = sep then [] :: splitOnChar sep cs
      else
        match splitOnChar sep cs with
        | r :: rs => (c :: r) :: rs
        | [] => [[c]]

/-- `is_valid_email` from `users.py`: the anchored regex
`[a-zA-Z0-9._%+-]+@[a-zA-Z0-9.-]+\.[a-zA-Z]{2,}`. Neither character class
contains `@`, so the string must have exactly one `@`; the `[a-zA-Z]{2,}`
segment is anchored at the end, so the dot before it is necessarily the
last dot of the domain, and the part before that dot must be a non-empty
run of domain characters. -/
def is_valid_email (s : String) : Bool :=
  match splitOnChar '@' s.data with
  | [localPart, domain] =>
      !localPart.isEmpty && localPart.all isLocalChar &&
      domain.all isDomainChar &&
      (match (splitOnChar '.' domain).reverse with
       | tld :: rest =>
           decide (2 ≤ tld.length) && tld.all Char.isAlpha &&
           !rest.isEmpty && decide (rest ≠ [[]])
       | [] => false)
  | _ => false

/-- The fixed special-character set of the password validator:
`!@#$%^&*(),.?":{}|<>`. -/
def specialChars : List Char := "!@#$%^&*(),.?\":\x7b\x7d|<>".toList

/-- `is_strong_password` from `users.py`: the rules are checked in a fixed
order and the first unmet rule's message is returned. -/
def is_strong_password (p : String) : Bool × String :=
  if p.length < 8 then (false, "Password must be at least 8 characters")
  else if !(p.toList.any (fun c => 'A' ≤ c && c ≤ 'Z')) then
    (false, "Must contain uppercase letter")
  else if !(p.toList.any (fun c => 'a' ≤ c && c ≤ 'z')) then
    (false, "Must contain lowercase letter")
  else if !(p.toList.any (fun c => '0' ≤ c && c ≤ '9')) then
    (false, "Must contain digit")
  else if !(p.toList.any (fun c => specialChars.contains c)) then
    (false, "Must contain special character")
  else (true, "Valid")

/-- The password rules as the spec words them: an ordered list of
(satisfied-test, failure-message) pairs. -/
def pwRules : List ((String → Bool) × String) :=
  [(fun p => decide (8 ≤ p.length), "Password must be at least 8 characters"),
   (fun p => p.toList.any (fun c => 'A' ≤ c && c ≤ 'Z'),
     "Must contain uppercase letter"),
   (fun p => p.toList.any (fun c => 'a' ≤ c && c ≤ 'z'),
     "Must contain lowercase letter"),
   (fun p => p.toList.any (fun c => '0' ≤ c && c ≤ '9'),
     "Must contain digit"),
   (fun p => p.toList.any (fun c => specialChars.contains c),
     "Must contain special character")]

/-- The spec's reading of the validator: find the first unmet rule in
order and return its message; succeed when every rule is met. -/
def specStrongPassword (p : String) : Bool × String :=
  match pwRules.find? (fun r => !r.1 p) with
  | some r => (false, r.2)
  | none => (true, "Valid")

/-- C4: `is_strong_password` returns `(ok, message)`; when a rule is unmet
the result is `false` with the message of the first unmet rule in the
fixed order (length 8, uppercase, lowercase, digit, special character),
and when all rules are met the result is `true`. -/
theorem C4_is_strong_password (p : String) :
    is_strong_password p = specStrongPassword p ∧
      ((is_strong_password p).1 = true ↔ ∀ r ∈ pwRules, r.1 p = true) := by
  have heq : is_strong_password p = specStrongPassword p := by
    unfold is_strong_password specStrongPassword pwRules
    simp only [List.find?]
    by_cases h1 : p.length < 8
    · rw [if_pos h1, decide_eq_false (Nat.not_le_of_lt h1)]
      rfl
    · rw [if_neg h1, decide_eq_true (Nat.le_of_not_lt h1)]
      cases h2 : (p.toList.any fun c => decide ('A' ≤ c) && decide (c ≤ 'Z'))
      · rfl
      · cases h3 : (p.toList.any fun c => decide ('a' ≤ c) && decide (c ≤ 'z'))
        · rfl
        · cases h4 : (p.toList.any fun c => decide ('0' ≤ c) && decide (c ≤ '9'))
          · rfl
          · cases h5 : (p.toList.any fun c => specialChars.contains c)
            · rfl
            · rfl
  refine ⟨heq, ?_⟩
  rw [heq]
  unfold specStrongPassword
  cases hf : pwRules.find? (fun r => !r.1 p) with
  | none =>
      have hall := List.find?_eq_none.mp hf
      simp only [true_iff]
      intro r hr
      have := hall r hr
      simpa using this
  | some r =>
      have hmem := List.mem_of_find?_eq_some hf
      have hpr := List.find?_some hf
      refine ⟨fun h => (Bool.false_ne_true h).elim, fun hall => ?_⟩
      have hr := hall r hmem
      simp [hr] at hpr

/-! ## Registration (`users.py`, `register`) -/

/-- The registration form fields, as submitted. -/
structure RegForm where
  email : String
  user_type : String
  first_name : String
  last_name : String
  password : String
  confirm_password : String
  phone : String
  website : String
  business_name : String
deriving DecidableEq, Repr

/-- The observable outcome of a POST to `/users/register`: each failure
redirects with its flash message; success redirects to the login page. -/
inductive RegOutcome
  | invalidEmail
  | invalidRole
  | nameRequired
  | passwordMismatch
  | weakPassword (msg : String)
  | emailExists
  | success
deriving DecidableEq, Repr

/-- `register` from `users.py`: validations in source order, then the
duplicate-email lookup, then the `INSERT` into `UserProfile` followed by
the `Registered` audit row. Returns the new table states and the outcome. -/
def register (hash : String → String) (db : List UserRow) (logs : List LogRow)
    (f : RegForm) (now : Int) : List UserRow × List LogRow × RegOutcome :=
  let email := normEmail f.email
  let user_type := trimStr f.user_type
  let first_name := trimStr f.first_name
  let last_name := trimStr f.last_name
  if email = "" || !is_valid_email email then (db, logs, .invalidEmail)
  else if !(user_type == "customer" || user_type == "merchant") then
    (db, logs, .invalidRole)
  else if first_name = "" || last_name = "" then (db, logs, .nameRequired)
  else if f.password ≠ f.confirm_password then (db, logs, .passwordMismatch)
  else if !(is_strong_password f.password).1 then
    (db, logs, .weakPassword (is_strong_password f.password).2)
  else if (findUser db email).isSome then (db, logs, .emailExists)
  else
    (db ++ [{ email := email, userType := user_type, firstName := first_name,
              lastName := last_name, upassword := hash f.password,
              phone := optField f.phone, website := optField f.website,
              businessName := optField f.business_name, status := "active",
              timeOfCreation := now, lastLogin := none }],
     logs ++ [{ email := email, activityType := "Registered",
                activityDescription := none, activityDate := now }],
     .success)

/-- A successful registration appends exactly one `UserProfile` row, whose
e-mail is the case-folded submitted e-mail. -/
theorem register_success_inserts (hash : String → String) (db : List UserRow)
    (logs : List LogRow) (f : RegForm) (now : Int)
    (h : (register hash db logs f now).2.2 = RegOutcome.success) :
    ∃ u, (register hash db logs f now).1 = db ++ [u] ∧
      u.email = normEmail f.email := by
  unfold register at h ⊢
  simp only [] at h ⊢
  split_ifs at h ⊢ <;>
    first
      | exact ⟨_, rfl, rfl⟩
      | simp at h

/-- C9: if a registration succeeds, a second registration whose submitted
e-mail is equal up to letter case (the handler case-folds with
`.strip().lower()`) and which passes the earlier field validations is
rejected as already registered, and neither table changes. -/
theorem C9_register_email_unique (hash : String → String) (db : List UserRow)
    (logs : List LogRow) (f1 f2 : RegForm) (now1 now2 : Int)
    (h1 : (register hash db logs f1 now1).2.2 = RegOutcome.success)
    (heq : normEmail f2.email = normEmail f1.email)
    (hvalid : is_valid_email (normEmail f2.email) = true)
    (hrole : trimStr f2.user_type = "customer" ∨ trimStr f2.user_type = "merchant")
    (hfn : trimStr f2.first_name ≠ "") (hln : trimStr f2.last_name ≠ "")
    (hpw : f2.password = f2.confirm_password)
    (hstrong : (is_strong_password f2.password).1 = true) :
    (register hash (register hash db logs f1 now1).1
        (register hash db logs f1 now1).2.1 f2 now2).2.2 = RegOutcome.emailExists
    ∧ (register hash (register hash db logs f1 now1).1
        (register hash db logs f1 now1).2.1 f2 now2).1 =
        (register hash db logs f1 now1).1
    ∧ (register hash (register hash db logs f1 now1).1
        (register hash db logs f1 now1).2.1 f2 now2).2.1 =
        (register hash db logs f1 now1).2.1 := by
  obtain ⟨u, hdb, hue⟩ := register_success_inserts hash db logs f1 now1 h1
  have hne : normEmail f2.email ≠ "" := by
    intro h0
    rw [h0] at hvalid
    exact absurd hvalid (by decide)
  have hfind : (findUser (register hash db logs f1 now1).1
      (normEmail f2.email)).isSome = true := by
    rw [hdb]
    unfold findUser
    rw [List.find?_append]
    have hu : List.find? (fun v => v.email == normEmail f2.email) [u] = some u := by
      simp [List.find?, heq, hue]
    rw [hu]
    cases List.find? (fun v => v.email == normEmail f2.email) db <;> simp
  have c4 : ¬(f2.password ≠ f2.confirm_password) := fun h => h hpw
  have hmain : ∀ (db1 : List UserRow) (logs1 : List LogRow),
      (findUser db1 (normEmail f2.email)).isSome = true →
      register hash db1 logs1 f2 now2 = (db1, logs1, RegOutcome.emailExists) := by
    intro db1 logs1 hf
    rw [register]
    rw [if_neg (by simp [hne, hvalid]),
        if_neg (by rcases hrole with h | h <;> simp [h]),
        if_neg (by simp [hfn, hln]),
        if_neg c4,
        if_neg (by simp [hstrong]),
        if_pos hf]
  rw [hmain _ _ hfind]
  exact ⟨rfl, rfl, rfl⟩

/-- The first registration form used on claim C9. -/
def regF1 : RegForm :=
  ⟨"User@Example.com", "customer", "Ada", "Lovelace",
   "Passw0rd!", "Passw0rd!", "", "", ""⟩

/-- The second registration form used on claim C9: same e-mail up to
letter case, otherwise valid. -/
def regF2 : RegForm :=
  ⟨"user@example.COM", "merchant", "Bob", "Smith",
   "Str0ng#Pw", "Str0ng#Pw", "", "", ""⟩

/-- Witness for C9 at a concrete pair of registrations. -/
theorem C9_witness :
    (register id [] [] regF1 0).2.2 = RegOutcome.success ∧
    (register id (register id [] [] regF1 0).1
        (register id [] [] regF1 0).2.1 regF2 1).2.2 = RegOutcome.emailExists := by
  refine ⟨by decide, (C9_register_email_unique id [] [] regF1 regF2 0 1
    (by decide) (by decide) (by decide) (Or.inr (by decide))
    (by decide) (by decide) (by decide) (by decide)).1⟩

/-- Witness for C1 at a concrete input: the never-updated product is
reported by the amended characterisation. -/
theorem C1_witness :
    idleKeep 100 40 idleP0 = true ∧
      idleRow 100 idleP0 ∈ fetch_idle_stock 100 40 [idleP0] := by
  have h := C1_fetch_idle_stock 100 40 [idleP0]
  exact ⟨by decide, (h.1 (idleRow 100 idleP0)).mpr ⟨idleP0, by simp, by decide, rfl⟩⟩

/-- Witness for C4 at concrete passwords. -/
theorem C4_witness :
    is_strong_password "abc" = specStrongPassword "abc" ∧
      ((is_strong_password "Abcdef1!").1 = true ↔
        ∀ r ∈ pwRules, r.1 "Abcdef1!" = true) :=
  ⟨(C4_is_strong_password "abc").1, (C4_is_strong_password "Abcdef1!").2⟩

/-! ## Login (`users.py`, `login`) -/

/-- The observable outcome of a POST to `/users/login`. -/
inductive LoginResult
  | dbError
  | failure (msg : String)
  | loggedIn (welcome : String)
deriving DecidableEq, Repr

/-- `login` from `users.py`: look the case-folded e-mail up, fail with one
generic message whether the row is missing or the password check fails,
reject non-active accounts with a distinct message, and otherwise stamp
`LastLogin`, append a `Logged In` audit row and establish the session.
The password-hash check `check_password_hash` is the abstract `check`. -/
def login (check : String → String → Bool) (dbOk : Bool) (db : List UserRow)
    (logs : List LogRow) (emailRaw password : String) (now : Int) :
    List UserRow × List LogRow × LoginResult :=
  let email := normEmail emailRaw
  if !dbOk then (db, logs, .dbError)
  else
    match findUser db email with
    | none => (db, logs, .failure "Invalid email or password.")
    | some u =>
        if !check u.upassword password then
          (db, logs, .failure "Invalid email or password.")
        else if u.status ≠ "active" then
          (db, logs, .failure "Account disabled.")
        else
          (db.map (fun v =>
             if v.email == email then { v with lastLogin := some now } else v),
           logs ++ [{ email := email, activityType := "Logged In",
                      activityDescription := none, activityDate := now }],
           .loggedIn ("Welcome, " ++ u.firstName ++ "!"))

/-- C5: a login with an unknown e-mail and a login with a known e-mail but
wrong password produce the identical user-facing message, so the response
does not reveal which check failed; only a correct password on a
non-active account produces the distinct disabled message. -/
theorem C5_login_indistinguishable (check : String → String → Bool)
    (db : List UserRow) (logs : List LogRow) (e1 p1 e2 p2 : String) (now : Int)
    (h1 : findUser db (normEmail e1) = none)
    (u2 : UserRow) (h2 : findUser db (normEmail e2) = some u2)
    (hch : check u2.upassword p2 = false) :
    ((login check true db logs e1 p1 now).2.2 =
        LoginResult.failure "Invalid email or password."
     ∧ (login check true db logs e2 p2 now).2.2 =
        LoginResult.failure "Invalid email or password."
     ∧ (login check true db logs e1 p1 now).2.2 =
        (login check true db logs e2 p2 now).2.2)
    ∧ (∀ e p u, findUser db (normEmail e) = some u →
        check u.upassword p = true → u.status ≠ "active" →
        (login check true db logs e p now).2.2 =
          LoginResult.failure "Account disabled.")
    ∧ LoginResult.failure "Account disabled." ≠
        LoginResult.failure "Invalid email or password." := by
  have hA : (login check true db logs e1 p1 now).2.2 =
      LoginResult.failure "Invalid email or password." := by
    simp [login, h1]
  have hB : (login check true db logs e2 p2 now).2.2 =
      LoginResult.failure "Invalid email or password." := by
    simp [login, h2, hch]
  refine ⟨⟨hA, hB, by rw [hA, hB]⟩, ?_, by decide⟩
  intro e p u hu hc hs
  simp [login, hu, hc, hs]

/-- An active account used on claim C5. -/
def loginU0 : UserRow :=
  ⟨"a@b.com", "customer", "Ann", "Lee", "pw123", none, none, none,
   "active", 0, none⟩

/-- A disabled account used on claim C5. -/
def loginU1 : UserRow :=
  ⟨"c@d.com", "merchant", "Cy", "Dee", "pw456", none, none, none,
   "disabled", 0, none⟩

/-- Witness for C5 at concrete logins. -/
theorem C5_witness :
    (login (fun h q => h == q) true [loginU0, loginU1] [] "missing@x.com" "pw" 5).2.2 =
      LoginResult.failure "Invalid email or password."
    ∧ (login (fun h q => h == q) true [loginU0, loginU1] [] " A@B.com" "wrong" 5).2.2 =
      LoginResult.failure "Invalid email or password."
    ∧ (login (fun h q => h == q) true [loginU0, loginU1] [] "c@d.com" "pw456" 5).2.2 =
      LoginResult.failure "Account disabled." := by
  have h := C5_login_indistinguishable (fun h q => h == q) [loginU0, loginU1] []
    "missing@x.com" "pw" " A@B.com" "wrong" 5 (by decide) loginU0 (by decide) (by decide)
  exact ⟨h.1.1, h.1.2.1, h.2.1 "c@d.com" "pw456" loginU1 (by decide) (by decide) (by decide)⟩

/-! ## Chat analysis (`users.py`, `chat_analyze`) -/

/-- The database aggregates behind the five whitelisted queries, indexed
in their fixed order. -/
structure ChatWorld where
  counts : Nat → Nat

/-- A JSON response of the chat-analyze endpoint. -/
inductive ChatResp
  | badRequest (msg : String)
  | answer (text : String) (value : Option Nat) (label : Option String)
deriving DecidableEq, Repr

/-- The whitelisted queries of `chat_analyze`, in dictionary order:
keyword phrase, query index, and label. -/
def cannedQueries : List (String × Nat × String) :=
  [("new customers", 0, "New customers (30d)"),
   ("active users", 1, "Total active users"),
   ("merchants", 2, "Total merchants"),
   ("customers", 3, "Total customers"),
   ("disabled", 4, "Disabled accounts")]

/-- The fallback answer listing the supported phrases. -/
def notUnderstoodMsg : String :=
  "Query not understood. Try: \"new customers\", \"active users\", \"merchants\", \"customers\", \"disabled\""

/-- `chat_analyze` from `users.py`: lower-case and strip the question,
reject an empty question, return the first whitelisted phrase contained in
it with its canned aggregate, otherwise the not-understood message; in
either non-empty case append an `Analysis` audit row whose description is
the processed question. -/
def chat_analyze (w : ChatWorld) (email rawQuestion : String)
    (logs : List LogRow) (now : Int) : List LogRow × ChatResp :=
  let question := lowerStr (trimStr rawQuestion)
  if question = "" then (logs, .badRequest "No question")
  else
    let logs2 := logs ++ [{ email := email, activityType := "Analysis",
                            activityDescription := some question,
                            activityDate := now }]
    match cannedQueries.find? (fun q => strContains question q.1) with
    | some (_, qid, label) =>
        (logs2, .answer (label ++ ": " ++ toString (w.counts qid))
          (some (w.counts qid)) (some label))
    | none => (logs2, .answer notUnderstoodMsg none none)

/-- C7, counterexample: the audit row records the lower-cased, stripped
question, not the raw question text (for the raw question `"Merchants"`
the logged description is `"merchants"`, which does not contain the raw
text), and a whitespace-only question is rejected with an error and no
audit row at all rather than a not-understood answer. -/
theorem C7_counterexample :
    ((chat_analyze ⟨fun _ => 5⟩ "u@x.com" "Merchants" [] 7).1 =
        [⟨"u@x.com", "Analysis", some "merchants", 7⟩]
      ∧ strContains "merchants" "Merchants" = false)
    ∧ chat_analyze ⟨fun _ => 5⟩ "u@x.com" " " [] 7 =
        ([], ChatResp.badRequest "No question") := by
  refine ⟨⟨?_, by decide⟩, by decide⟩
  decide

/-- C7, amended: for a question that is non-empty after stripping,
`chat_analyze` lower-cases it, returns the canned aggregate and label of
the first whitelisted phrase contained in it — or the not-understood
message listing the phrases when none matches — and in both of those
cases writes an audit row whose description is the lower-cased, stripped
question text; a question that strips to empty is rejected with an error
and no audit row. -/
theorem C7_chat_analyze (w : ChatWorld) (email q : String)
    (logs : List LogRow) (now : Int) :
    (lowerStr (trimStr q) = "" →
      chat_analyze w email q logs now = (logs, ChatResp.badRequest "No question"))
    ∧ (lowerStr (trimStr q) ≠ "" →
        (chat_analyze w email q logs now).1 =
          logs ++ [{ email := email, activityType := "Analysis",
                     activityDescription := some (lowerStr (trimStr q)),
                     activityDate := now }]
        ∧ (∀ k qid label,
            cannedQueries.find?
                (fun c => strContains (lowerStr (trimStr q)) c.1) =
              some (k, qid, label) →
            (chat_analyze w email q logs now).2 =
              ChatResp.answer (label ++ ": " ++ toString (w.counts qid))
                (some (w.counts qid)) (some label))
        ∧ (cannedQueries.find?
              (fun c => strContains (lowerStr (trimStr q)) c.1) = none →
            (chat_analyze w email q logs now).2 =
              ChatResp.answer notUnderstoodMsg none none)) := by
  by_cases hq : lowerStr (trimStr q) = ""
  · refine ⟨fun _ => ?_, fun hne => absurd hq hne⟩
    simp [chat_analyze, hq]
  · refine ⟨fun h => absurd h hq, fun _ => ⟨?_, ?_, ?_⟩⟩
    · cases hf : cannedQueries.find?
          (fun c => strContains (lowerStr (trimStr q)) c.1) with
      | none => simp [chat_analyze, hq, hf]
      | some r =>
          obtain ⟨k, qid, label⟩ := r
          simp [chat_analyze, hq, hf]
    · intro k qid label hf
      simp [chat_analyze, hq, hf]
    · intro hf
      simp [chat_analyze, hq, hf]

/-- Witness for C7 at a concrete matched question. -/
theorem C7_witness :
    lowerStr (trimStr " How many Active Users? ") ≠ "" ∧
    (chat_analyze ⟨fun _ => 7⟩ "u@x.com" " How many Active Users? " [] 3).1 =
      [⟨"u@x.com", "Analysis", some "how many active users?", 3⟩] := by
  have h := (C7_chat_analyze ⟨fun _ => 7⟩ "u@x.com" " How many Active Users? "
    [] 3).2 (by decide)
  refine ⟨by decide, ?_⟩
  rw [h.1]
  decide

/-! ## Free-form SQL passthrough (`views.py`, `query_database`) -/

/-- The database as seen by `/api/query`: whether a connection can be
opened, and what executing a statement yields (row count) or raises. -/
structure QueryWorld where
  connOk : Bool
  run : String → Except String Nat

/-- A JSON response of the `/api/query` endpoint. -/
inductive QueryResp
  | badRequest (msg : String)
  | serverError (msg : String)
  | results (count : Nat)
deriving DecidableEq, Repr

/-- Python `str.upper().startswith("SELECT")` on the stripped statement. -/
def selectGuard (q : String) : Bool :=
  decide ("SELECT".data <+: (upperStr q).data)

/-- `query_database` from `views.py`: reject an empty statement, reject
any statement whose uppercased text does not begin with `SELECT`, and
otherwise execute it verbatim — there is no further parsing. -/
def query_database (w : QueryWorld) (rawBody : String) : QueryResp :=
  let q := trimStr rawBody
  if q = "" then .badRequest "No query provided"
  else if !selectGuard q then .badRequest "Only SELECT queries are allowed"
  else if !w.connOk then .serverError "Database connection failed"
  else
    match w.run q with
    | .ok n => .results n
    | .error e => .serverError e

/-- C8: the guard of `/api/query` is exactly the SELECT-prefix check on
the uppercased statement: an empty statement and every non-empty
statement failing the prefix check are rejected with an error response,
and every statement passing the prefix check reaches execution verbatim,
with no multi-statement or injection protection. -/
theorem C8_query_guard (w : QueryWorld) (raw : String) :
    (trimStr raw = "" →
      query_database w raw = QueryResp.badRequest "No query provided")
    ∧ (trimStr raw ≠ "" → selectGuard (trimStr raw) = false →
        query_database w raw =
          QueryResp.badRequest "Only SELECT queries are allowed")
    ∧ (selectGuard (trimStr raw) = true →
        trimStr raw ≠ ""
        ∧ query_database w raw =
            (if !w.connOk then QueryResp.serverError "Database connection failed"
             else match w.run (trimStr raw) with
                  | .ok n => QueryResp.results n
                  | .error e => QueryResp.serverError e)) := by
  refine ⟨fun h => ?_, fun hne hg => ?_, fun hg => ?_⟩
  · simp [query_database, h]
  · simp [query_database, hne, hg]
  · have hne : trimStr raw ≠ "" := by
      intro h0
      rw [h0] at hg
      exact absurd hg (by decide)
    refine ⟨hne, ?_⟩
    simp [query_database, hne, hg]

/-- Witness for C8: a piggybacked statement passes the prefix guard and is
executed verbatim, while a non-SELECT statement is rejected. -/
theorem C8_witness :
    query_database ⟨true, fun _ => Except.ok 3⟩
      " select 1; DROP TABLE product " = QueryResp.results 3
    ∧ query_database ⟨true, fun _ => Except.ok 3⟩
      "DELETE FROM product" =
        QueryResp.badRequest "Only SELECT queries are allowed" := by
  have h1 := ((C8_query_guard ⟨true, fun _ => Except.ok 3⟩
    " select 1; DROP TABLE product ").2.2 (by decide)).2
  have h2 := (C8_query_guard ⟨true, fun _ => Except.ok 3⟩
    "DELETE FROM product").2.1 (by decide) (by decide)
  exact ⟨by rw [h1]; rfl, h2⟩

/-! ## Profile update (`users.py`, `profile`, POST branch) -/

/-- The profile form fields, as submitted. -/
structure ProfileForm where
  first_name : String
  last_name : String
  phone : String
  website : String
  business_name : String
  new_password : String
  confirm_password : String
deriving DecidableEq, Repr

/-- What the handler finally does: render the profile page (with the user
row it re-selected), or redirect to the profile page. -/
inductive ProfileOutcome
  | renderProfile (user : Option UserRow)
  | redirectProfile
deriving DecidableEq, Repr

/-- The request-scoped state of the handler: the connection flag, both
tables, and the flashed messages in order. -/
structure PState where
  connOpen : Bool
  db : List UserRow
  logs : List LogRow
  flashes : List String
deriving Repr

/-- `conn.close()`. -/
def pClose (st : PState) : PState := { st with connOpen := false }

/-- `flash(msg)`. -/
def pFlash (st : PState) (m : String) : PState :=
  { st with flashes := st.flashes ++ [m] }

/-- `cursor.execute("SELECT * FROM UserProfile WHERE Email = %s")` on a
cursor of the handler's connection: raises when the connection has
already been closed. -/
def pSelectUser (st : PState) (email : String) :
    Except String (Option UserRow) :=
  if st.connOpen then .ok (findUser st.db email) else .error "Cursor closed"

/-- The partial `UPDATE UserProfile SET ...` row transformation: only
non-empty fields are included; a non-empty new password is stored hashed. -/
def applyProfileUpdate (hash : String → String) (f : ProfileForm)
    (u : UserRow) : UserRow :=
  let u1 := if trimStr f.first_name ≠ "" then
    { u with firstName := trimStr f.first_name } else u
  let u2 := if trimStr f.last_name ≠ "" then
    { u1 with lastName := trimStr f.last_name } else u1
  let u3 := match optField f.phone with
    | some p => { u2 with phone := some p } | none => u2
  let u4 := match optField f.website with
    | some w => { u3 with website := some w } | none => u3
  let u5 := match optField f.business_name with
    | some b => { u4 with businessName := some b } | none => u4
  if trimStr f.new_password ≠ "" then
    { u5 with upassword := hash (trimStr f.new_password) } else u5

/-- Python truthiness of the `updates` list built by the handler. -/
def anyProfileUpdates (f : ProfileForm) : Bool :=
  trimStr f.first_name ≠ "" || trimStr f.last_name ≠ "" ||
  (optField f.phone).isSome || (optField f.website).isSome ||
  (optField f.business_name).isSome || trimStr f.new_password ≠ ""

/-- The POST branch of `profile` from `users.py`. On a password
confirmation mismatch or a failed strength check the source closes the
connection, flashes the specific message, and then executes a `SELECT` on
a cursor of that closed connection before rendering; the raised error is
caught by the handler's broad `except`, which flashes `Error: ...` and
redirects. Otherwise the non-empty fields are applied, an audit row is
written and the handler flashes and redirects. -/
def profile_post (hash : String → String) (db : List UserRow)
    (logs : List LogRow) (email : String) (f : ProfileForm) (now : Int) :
    PState × ProfileOutcome :=
  let st0 : PState := ⟨true, db, logs, []⟩
  let newPw := trimStr f.new_password
  let confirmPw := trimStr f.confirm_password
  let body : PState × Except String ProfileOutcome :=
    if newPw ≠ "" && newPw ≠ confirmPw then
      let st1 := pFlash (pClose st0) "Passwords do not match."
      match pSelectUser st1 email with
      | .error e => (st1, .error e)
      | .ok u => (st1, .ok (.renderProfile u))
    else if newPw ≠ "" && !(is_strong_password newPw).1 then
      let st1 := pFlash (pClose st0) (is_strong_password newPw).2
      match pSelectUser st1 email with
      | .error e => (st1, .error e)
      | .ok u => (st1, .ok (.renderProfile u))
    else if anyProfileUpdates f then
      let row : LogRow := { email := email, activityType := "Profile Updated",
                            activityDescription := none, activityDate := now }
      let st1 : PState :=
        { st0 with
          db := st0.db.map (fun u =>
            if u.email == email then applyProfileUpdate hash f u else u),
          logs := st0.logs ++ [row] }
      (pClose (pFlash st1 "Profile updated."), .ok .redirectProfile)
    else (pClose (pFlash st0 "No changes."), .ok .redirectProfile)
  match body with
  | (st, .ok o) => (st, o)
  | (st, .error e) => (pFlash st ("Error: " ++ e), .redirectProfile)

/-- C10: when the new password is non-empty and either differs from its
confirmation or fails the strength check, the handler closes the
connection and then runs a query on a cursor of that closed connection;
the query raises, so the profile page is never rendered with the specific
message — the broad exception branch flashes a generic error and
redirects — and no `UPDATE` of the user row (and no audit row) occurs. -/
theorem C10_profile_closed_conn (hash : String → String) (db : List UserRow)
    (logs : List LogRow) (email : String) (f : ProfileForm) (now : Int)
    (hnp : trimStr f.new_password ≠ "")
    (hbad : trimStr f.new_password ≠ trimStr f.confirm_password ∨
      (is_strong_password (trimStr f.new_password)).1 = false) :
    (profile_post hash db logs email f now).2 = ProfileOutcome.redirectProfile
    ∧ (∀ u, (profile_post hash db logs email f now).2 ≠
        ProfileOutcome.renderProfile u)
    ∧ (profile_post hash db logs email f now).1.db = db
    ∧ (profile_post hash db logs email f now).1.logs = logs
    ∧ (profile_post hash db logs email f now).1.flashes.getLast? =
        some "Error: Cursor closed"
    ∧ (profile_post hash db logs email f now).1.connOpen = false := by
  by_cases hmm : trimStr f.new_password = trimStr f.confirm_password
  · have hweak : (is_strong_password (trimStr f.new_password)).1 = false := by
      rcases hbad with h | h
      · exact absurd hmm h
      · exact h
    have hres : profile_post hash db logs email f now =
        ({ connOpen := false, db := db, logs := logs,
           flashes := [(is_strong_password (trimStr f.new_password)).2,
             "Error: Cursor closed"] }, ProfileOutcome.redirectProfile) := by
      have hnp2 : trimStr f.confirm_password ≠ "" := hmm ▸ hnp
      have hweak2 : (is_strong_password (trimStr f.confirm_password)).1 = false :=
        hmm ▸ hweak
      simp [profile_post, pSelectUser, pClose, pFlash, hnp, hmm, hweak,
        hnp2, hweak2]
    rw [hres]
    refine ⟨rfl, fun u => by simp, rfl, rfl, rfl, rfl⟩
  · have hres : profile_post hash db logs email f now =
        ({ connOpen := false, db := db, logs := logs,
           flashes := ["Passwords do not match.", "Error: Cursor closed"] },
         ProfileOutcome.redirectProfile) := by
      simp [profile_post, pSelectUser, pClose, pFlash, hnp, hmm]
    rw [hres]
    refine ⟨rfl, fun u => by simp, rfl, rfl, rfl, rfl⟩

/-- Witness for C10: a short (weak) but matching new password. -/
theorem C10_witness :
    (profile_post id [loginU0] [] "a@b.com"
        ⟨"", "", "", "", "", "short", "short"⟩ 9).2 =
      ProfileOutcome.redirectProfile
    ∧ (profile_post id [loginU0] [] "a@b.com"
        ⟨"", "", "", "", "", "short", "short"⟩ 9).1.db = [loginU0]
    ∧ (profile_post id [loginU0] [] "a@b.com"
        ⟨"", "", "", "", "", "short", "short"⟩ 9).1.flashes.getLast? =
      some "Error: Cursor closed" := by
  have h := C10_profile_closed_conn id [loginU0] [] "a@b.com"
    ⟨"", "", "", "", "", "short", "short"⟩ 9 (by decide) (Or.inr (by decide))
  exact ⟨h.1, h.2.2.1, h.2.2.2.2.1⟩
